import Mathlib

/-! # GT-NUCL1633K1 fingerprint module definitions

A shallow embedding of `src/fingerprint_defs.h`: the packet structure
constants, the command and ACK codes, the extended data block layouts and the
two lookup functions `fp_cmd_to_string` and `fp_ack_to_string`.

A `uint8_t` is a natural number below `256`; a byte block is a `List Nat`.
Every `#define` of the header is a `def` of the same name with the same value.
-/

set_option autoImplicit false

namespace FingerprintDefs

/-! ## Packet structure constants -/

def FP_PACKET_START_CODE : Nat := 0xF5
def FP_PACKET_END_CODE : Nat := 0xF5
def FP_PACKET_SIZE : Nat := 8

/-! ### Command packet offsets -/

def FP_CMD_OFFSET_START : Nat := 0
def FP_CMD_OFFSET_COMMAND : Nat := 1
def FP_CMD_OFFSET_P1 : Nat := 2
def FP_CMD_OFFSET_P2 : Nat := 3
def FP_CMD_OFFSET_P3 : Nat := 4
def FP_CMD_OFFSET_P4 : Nat := 5
def FP_CMD_OFFSET_CHECKSUM : Nat := 6
def FP_CMD_OFFSET_END : Nat := 7

/-! ### Response packet offsets -/

def FP_ACK_OFFSET_START : Nat := 0
def FP_ACK_OFFSET_COMMAND : Nat := 1
def FP_ACK_OFFSET_Q1 : Nat := 2
def FP_ACK_OFFSET_Q2 : Nat := 3
def FP_ACK_OFFSET_Q3 : Nat := 4
def FP_ACK_OFFSET_RESERVED : Nat := 5
def FP_ACK_OFFSET_CHECKSUM : Nat := 6
def FP_ACK_OFFSET_END : Nat := 7

/-! ## Command codes -/

def FP_CMD_OPEN : Nat := 0xA0
def FP_CMD_CLOSE : Nat := 0xA1
def FP_CMD_UART_CONTROL : Nat := 0xA3
def FP_CMD_LED_CONTROL : Nat := 0xB4
def FP_CMD_IS_PRESS_FINGER : Nat := 0xB5
def FP_CMD_ENROLL : Nat := 0x01
def FP_CMD_DELETE_ID : Nat := 0x04
def FP_CMD_DELETE_ALL : Nat := 0x05
def FP_CMD_GET_USER_COUNT : Nat := 0x09
def FP_CMD_IDENTIFY : Nat := 0x0C
def FP_CMD_GET_ENTRY_ID : Nat := 0x0D
def FP_CMD_GET_FW_VERSION : Nat := 0x26
def FP_CMD_ENROLL_CANCEL : Nat := 0x92

/-! ## ACK (acknowledge) codes -/

def FP_ACK_SUCCESS : Nat := 0x00
def FP_ACK_FAIL : Nat := 0x01
def FP_ACK_FULL : Nat := 0x04
def FP_ACK_NOUSER : Nat := 0x05
def FP_ACK_USER_EXIST : Nat := 0x07
def FP_ACK_TIMEOUT : Nat := 0x08
def FP_ACK_WRONG_FORMAT : Nat := 0x09
def FP_ACK_BREAK : Nat := 0x18
def FP_ACK_INVALID_PARAMETER : Nat := 0xB0
def FP_ACK_FINGER_IS_NOT_PRESSED : Nat := 0xB1
def FP_ACK_COMMAND_NO_SUPPORT : Nat := 0xB4
def FP_ACK_ENROLL_OVEREXPOSURE : Nat := 0xB5
def FP_ACK_ENROLL_MOVE_MORE : Nat := 0xB6
def FP_ACK_ENROLL_MOVE_LESS : Nat := 0xB7
def FP_ACK_ENROLL_DUPLICATE : Nat := 0xB8
def FP_ACK_FINGER_PRESS_NOT_FULL : Nat := 0xB9
def FP_ACK_ENROLL_POOR_QUALITY : Nat := 0xBA

/-! ## UART baud rate indexes -/

def FP_BAUDRATE_9600 : Nat := 1
def FP_BAUDRATE_19200 : Nat := 2
def FP_BAUDRATE_115200 : Nat := 3
def FP_BAUDRATE_230400 : Nat := 4
def FP_BAUDRATE_460800 : Nat := 5
def FP_BAUDRATE_921600 : Nat := 6

/-! ## LED control values, finger press status -/

def FP_LED_ON : Nat := 0
def FP_LED_OFF : Nat := 1

def FP_FINGER_NOT_PRESSED : Nat := 0
def FP_FINGER_PRESSED : Nat := 1

/-! ## Enroll result codes, open command flags -/

def FP_ENROLL_CONTINUE : Nat := 0x01
def FP_ENROLL_FINAL : Nat := 0x03

def FP_OPEN_FLAG_NO_DATA : Nat := 0
def FP_OPEN_FLAG_READ_FW_INFO : Nat := 1

/-! ## Open command data structure offsets (11 bytes) -/

def FP_OPEN_DATA_DEVICE_ID : Nat := 0
def FP_OPEN_DATA_RESERVED1 : Nat := 1
def FP_OPEN_DATA_FW_DAY : Nat := 2
def FP_OPEN_DATA_FW_MONTH : Nat := 3
def FP_OPEN_DATA_FW_YEAR_LOW : Nat := 4
def FP_OPEN_DATA_FW_YEAR_HIGH : Nat := 5
def FP_OPEN_DATA_RESERVED2 : Nat := 6
def FP_OPEN_DATA_SENSOR_TYPE : Nat := 10
def FP_OPEN_DATA_SIZE : Nat := 11

/-! ## Firmware version data structure offsets (40 bytes) -/

def FP_FW_DATA_SENSOR_TYPE : Nat := 0
def FP_FW_DATA_YEAR : Nat := 12
def FP_FW_DATA_MONTH : Nat := 13
def FP_FW_DATA_DAY : Nat := 14
def FP_FW_DATA_VERSION : Nat := 15
def FP_FW_DATA_SIZE : Nat := 40

/-! ## Device constants, user id range -/

def FP_DEVICE_ID : Nat := 0x01
def FP_ENROLL_SAMPLE_COUNT : Nat := 8
def FP_ENROLL_TIMEOUT_SECONDS : Nat := 8

def FP_USER_ID_MIN : Nat := 1

/-! ## Lookup functions -/

/-- Command code to string name: the `switch` of the header, one `case` per
branch in the header's order, `default` last. -/
def fp_cmd_to_string (cmd : Nat) : String :=
  if cmd = FP_CMD_OPEN then "Open"
  else if cmd = FP_CMD_CLOSE then "Close"
  else if cmd = FP_CMD_UART_CONTROL then "UART Control"
  else if cmd = FP_CMD_LED_CONTROL then "LED Control"
  else if cmd = FP_CMD_IS_PRESS_FINGER then "IsPressFinger"
  else if cmd = FP_CMD_ENROLL then "Enroll"
  else if cmd = FP_CMD_DELETE_ID then "DeleteID"
  else if cmd = FP_CMD_DELETE_ALL then "DeleteAll"
  else if cmd = FP_CMD_GET_USER_COUNT then "GetUserCount"
  else if cmd = FP_CMD_IDENTIFY then "Identify"
  else if cmd = FP_CMD_GET_ENTRY_ID then "GetEntryID"
  else if cmd = FP_CMD_GET_FW_VERSION then "GetFWVersion"
  else if cmd = FP_CMD_ENROLL_CANCEL then "EnrollCancel"
  else "Unknown"

/-- ACK code to string name: the `switch` of the header, one `case` per branch
in the header's order, `default` last. -/
def fp_ack_to_string (ack : Nat) : String :=
  if ack = FP_ACK_SUCCESS then "Success"
  else if ack = FP_ACK_FAIL then "Fail"
  else if ack = FP_ACK_FULL then "Full"
  else if ack = FP_ACK_NOUSER then "NoUser"
  else if ack = FP_ACK_USER_EXIST then "UserExist"
  else if ack = FP_ACK_TIMEOUT then "Timeout"
  else if ack = FP_ACK_WRONG_FORMAT then "WrongFormat"
  else if ack = FP_ACK_BREAK then "Break"
  else if ack = FP_ACK_INVALID_PARAMETER then "InvalidParameter"
  else if ack = FP_ACK_FINGER_IS_NOT_PRESSED then "FingerNotPressed"
  else if ack = FP_ACK_COMMAND_NO_SUPPORT then "CommandNoSupport"
  else if ack = FP_ACK_ENROLL_OVEREXPOSURE then "EnrollOverexposure"
  else if ack = FP_ACK_ENROLL_MOVE_MORE then "EnrollMoveMore"
  else if ack = FP_ACK_ENROLL_MOVE_LESS then "EnrollMoveLess"
  else if ack = FP_ACK_ENROLL_DUPLICATE then "EnrollDuplicate"
  else if ack = FP_ACK_FINGER_PRESS_NOT_FULL then "FingerPressNotFull"
  else if ack = FP_ACK_ENROLL_POOR_QUALITY then "EnrollPoorQuality"
  else "Unknown"

/-! ## Derived tables

The lists below collect constants of the header in the order the header
declares them; they add no value of their own. -/

/-- The eight command packet offsets, in the header's order. -/
def cmdOffsets : List Nat :=
  [FP_CMD_OFFSET_START, FP_CMD_OFFSET_COMMAND, FP_CMD_OFFSET_P1, FP_CMD_OFFSET_P2,
   FP_CMD_OFFSET_P3, FP_CMD_OFFSET_P4, FP_CMD_OFFSET_CHECKSUM, FP_CMD_OFFSET_END]

/-- The eight response packet offsets, in the header's order. -/
def ackOffsets : List Nat :=
  [FP_ACK_OFFSET_START, FP_ACK_OFFSET_COMMAND, FP_ACK_OFFSET_Q1, FP_ACK_OFFSET_Q2,
   FP_ACK_OFFSET_Q3, FP_ACK_OFFSET_RESERVED, FP_ACK_OFFSET_CHECKSUM, FP_ACK_OFFSET_END]

/-- The command byte and the four parameter bytes of a command packet. -/
def cmdChecksummed : List Nat :=
  [FP_CMD_OFFSET_COMMAND, FP_CMD_OFFSET_P1, FP_CMD_OFFSET_P2, FP_CMD_OFFSET_P3,
   FP_CMD_OFFSET_P4]

/-- The command byte and the four bytes after it of a response packet. -/
def ackChecksummed : List Nat :=
  [FP_ACK_OFFSET_COMMAND, FP_ACK_OFFSET_Q1, FP_ACK_OFFSET_Q2, FP_ACK_OFFSET_Q3,
   FP_ACK_OFFSET_RESERVED]

/-- The thirteen command codes, in the header's order. -/
def cmdCodes : List Nat :=
  [FP_CMD_OPEN, FP_CMD_CLOSE, FP_CMD_UART_CONTROL, FP_CMD_LED_CONTROL, FP_CMD_IS_PRESS_FINGER,
   FP_CMD_ENROLL, FP_CMD_DELETE_ID, FP_CMD_DELETE_ALL, FP_CMD_GET_USER_COUNT, FP_CMD_IDENTIFY,
   FP_CMD_GET_ENTRY_ID, FP_CMD_GET_FW_VERSION, FP_CMD_ENROLL_CANCEL]

/-- The seventeen ACK codes, in the header's order. -/
def ackCodes : List Nat :=
  [FP_ACK_SUCCESS, FP_ACK_FAIL, FP_ACK_FULL, FP_ACK_NOUSER, FP_ACK_USER_EXIST, FP_ACK_TIMEOUT,
   FP_ACK_WRONG_FORMAT, FP_ACK_BREAK, FP_ACK_INVALID_PARAMETER, FP_ACK_FINGER_IS_NOT_PRESSED,
   FP_ACK_COMMAND_NO_SUPPORT, FP_ACK_ENROLL_OVEREXPOSURE, FP_ACK_ENROLL_MOVE_MORE,
   FP_ACK_ENROLL_MOVE_LESS, FP_ACK_ENROLL_DUPLICATE, FP_ACK_FINGER_PRESS_NOT_FULL,
   FP_ACK_ENROLL_POOR_QUALITY]

/-- The five named field offsets of the firmware version block, in the header's order. -/
def fwDataOffsets : List Nat :=
  [FP_FW_DATA_SENSOR_TYPE, FP_FW_DATA_YEAR, FP_FW_DATA_MONTH, FP_FW_DATA_DAY,
   FP_FW_DATA_VERSION]

/-- The eight named field offsets of the Open info block, in the header's order. -/
def openDataOffsets : List Nat :=
  [FP_OPEN_DATA_DEVICE_ID, FP_OPEN_DATA_RESERVED1, FP_OPEN_DATA_FW_DAY, FP_OPEN_DATA_FW_MONTH,
   FP_OPEN_DATA_FW_YEAR_LOW, FP_OPEN_DATA_FW_YEAR_HIGH, FP_OPEN_DATA_RESERVED2,
   FP_OPEN_DATA_SENSOR_TYPE]

/-- The six baud rate indexes, in the header's order. -/
def baudIndexes : List Nat :=
  [FP_BAUDRATE_9600, FP_BAUDRATE_19200, FP_BAUDRATE_115200, FP_BAUDRATE_230400,
   FP_BAUDRATE_460800, FP_BAUDRATE_921600]

/-- The baud rate each index constant names (the number in its identifier),
paired with the constant, in the header's order. -/
def baudTable : List (Nat × Nat) :=
  [(9600, FP_BAUDRATE_9600), (19200, FP_BAUDRATE_19200), (115200, FP_BAUDRATE_115200),
   (230400, FP_BAUDRATE_230400), (460800, FP_BAUDRATE_460800), (921600, FP_BAUDRATE_921600)]

/-- The two LED control values, in the header's order. -/
def ledValues : List Nat :=
  [FP_LED_ON, FP_LED_OFF]

/-! ## Codec (specification, section 4.1)

The header declares the packet constants only; the codec that uses them is
described by the specification and is modelled here from its words. -/

/-- Modelled from the spec: the checksum function is missing from the header,
and the specification treats it as one pluggable function over the bytes at
offsets 1 to 5, naming two candidates. This is the first candidate, the sum
of the bytes modulo 256. -/
def checksumSum (bs : List Nat) : Nat :=
  bs.sum % 256

/-- Modelled from the spec: the second candidate the specification names for
the missing checksum function, the XOR of the bytes. -/
def checksumXor (bs : List Nat) : Nat :=
  bs.foldl (fun acc x => acc ^^^ x) 0

/-- Modelled from the spec: the 8-byte buffer that the missing codec reads and
writes, a byte list of length FP_PACKET_SIZE. -/
def Packet : Type :=
  { b : List Nat // b.length = FP_PACKET_SIZE }

/-- The byte of a packet at an offset. Every offset below FP_PACKET_SIZE is in
bounds, so the default is never read there. -/
def Packet.byte (p : Packet) (o : Nat) : Nat :=
  p.val.getD o 0

/-- Modelled from the spec: the framing errors of the missing decoder, each
carrying the raw bytes. -/
inductive FrameError where
  | BadStart (raw : List Nat)
  | BadEnd (raw : List Nat)
  | ChecksumMismatch (raw : List Nat)
  deriving DecidableEq, Repr

/-- Modelled from the spec: the error of the missing encoder for a parameter
outside its valid range. -/
inductive EncodeError where
  | InvalidArgument
  deriving DecidableEq, Repr

/-- Modelled from the spec: what the missing decoder returns for a well-framed
packet, the command byte and the four bytes after it (Q1, Q2, Q3, Reserved),
kept raw. The specification does not say which of them carries the status
code, so no status is singled out here. -/
structure Response where
  command : Nat
  q1 : Nat
  q2 : Nat
  q3 : Nat
  reserved : Nat
  deriving DecidableEq, Repr

/-- Modelled from the spec: the parameter bytes of a request, zero-padded to
four when the command uses fewer. -/
def padParams (params : List Nat) : List Nat :=
  (params ++ [0, 0, 0, 0]).take 4

/-- Modelled from the spec: the validity of a request to the missing encoder.
The command is one of the enumerated set, there are at most four parameters
and each is a byte; the parameter of UartControl is a recognised baud rate
index, that of LedControl a valid LED value (the one parameter of a command is
its first parameter byte), and the two-byte user ID of DeleteId, split across
P1 and P2, is at least FP_USER_ID_MIN. With FP_USER_ID_MIN = 1 the last check
does not depend on the byte order: it fails exactly when P1 and P2 are both
zero. -/
def validRequest (cmd : Nat) (params : List Nat) : Bool :=
  decide (cmd ∈ cmdCodes) && decide (params.length ≤ 4) && params.all (fun x => decide (x < 256))
    && (cmd != FP_CMD_UART_CONTROL || decide ((padParams params).getD 0 0 ∈ baudIndexes))
    && (cmd != FP_CMD_LED_CONTROL || decide ((padParams params).getD 0 0 ∈ ledValues))
    && (cmd != FP_CMD_DELETE_ID ||
          decide (FP_USER_ID_MIN ≤ 256 * (padParams params).getD 0 0 + (padParams params).getD 1 0))

/-- Modelled from the spec: the framing step of the missing encoder. The bytes
are listed in the order of the command packet offsets: Start sentinel, command
byte, the four padded parameter bytes, the checksum of the bytes at offsets 1
to 5 reduced to a byte, End sentinel. -/
def encodeFrame (ck : List Nat → Nat) (cmd : Nat) (params : List Nat) : Packet :=
  ⟨[FP_PACKET_START_CODE, cmd, (padParams params).getD 0 0, (padParams params).getD 1 0,
    (padParams params).getD 2 0, (padParams params).getD 3 0,
    ck (cmd :: padParams params) % 256, FP_PACKET_END_CODE], rfl⟩

/-- Modelled from the spec: the missing `encode(command, params) -> 8 bytes`.
An invalid request fails with InvalidArgument before any byte is produced; a
valid one is framed. -/
def encode (ck : List Nat → Nat) (cmd : Nat) (params : List Nat) : Except EncodeError Packet :=
  if validRequest cmd params then .ok (encodeFrame ck cmd params)
  else .error EncodeError.InvalidArgument

/-- Modelled from the spec: the missing `decode(8 bytes) -> Response | FrameError`.
It validates the Start sentinel, the End sentinel and the checksum over
offsets 1 to 5, in that order, and stops at the first failure. -/
def decode (ck : List Nat → Nat) (p : Packet) : Except FrameError Response :=
  if p.byte FP_ACK_OFFSET_START ≠ FP_PACKET_START_CODE then
    .error (FrameError.BadStart p.val)
  else if p.byte FP_ACK_OFFSET_END ≠ FP_PACKET_END_CODE then
    .error (FrameError.BadEnd p.val)
  else if p.byte FP_ACK_OFFSET_CHECKSUM ≠ ck (ackChecksummed.map p.byte) % 256 then
    .error (FrameError.ChecksumMismatch p.val)
  else
    .ok { command := p.byte FP_ACK_OFFSET_COMMAND, q1 := p.byte FP_ACK_OFFSET_Q1,
          q2 := p.byte FP_ACK_OFFSET_Q2, q3 := p.byte FP_ACK_OFFSET_Q3,
          reserved := p.byte FP_ACK_OFFSET_RESERVED }

/-! ## Enrollment workflow (specification, section 4.3)

The header declares FP_ENROLL_CONTINUE, FP_ENROLL_FINAL, FP_ENROLL_SAMPLE_COUNT
and FP_USER_ID_MIN only; the state machine that uses them is described by the
specification and is modelled here from its words. -/

/-- Modelled from the spec: the reason carried by the Failed state of the
missing workflow. A device status other than Success is carried as its raw
code; a framing error and a missing reply come from the Session. -/
inductive FailReason where
  | deviceStatus (code : Nat)
  | protocolError
  | sessionTimeout
  deriving DecidableEq, Repr

/-- Modelled from the spec: the states of the missing enrollment workflow. -/
inductive EnrollState where
  | Idle
  | Sampling (sampleIndex : Nat)
  | Completed
  | Failed (reason : FailReason)
  | Cancelled
  deriving DecidableEq, Repr

/-- Modelled from the spec: what the Session hands the missing workflow for one
Enroll command, either a decoded response, of which the workflow reads the
status code and the continuation marker, or a Session error. -/
inductive EnrollOutcome where
  | response (status : Nat) (continuation : Nat)
  | protocolError
  | timeout
  deriving DecidableEq, Repr

/-- Modelled from the spec: `start(user_id)` of the missing workflow. From Idle
and with a user ID of at least FP_USER_ID_MIN it moves to Sampling(0);
otherwise the call is rejected. -/
def enrollStart (userId : Nat) (s : EnrollState) : Option EnrollState :=
  match s with
  | .Idle => if FP_USER_ID_MIN ≤ userId then some (.Sampling 0) else none
  | _ => none

/-- Modelled from the spec: one iteration of the missing workflow in
Sampling(i), on the outcome of the Enroll command for sample i. Success with
Continue moves to Sampling(i + 1); Success with Final completes when
i + 1 = FP_ENROLL_SAMPLE_COUNT and is a protocol error before that; any other
status fails with that status, a Session error with its reason. The
specification is silent on Success with a continuation that is neither marker;
it is taken as a protocol error. Idle and the terminal states do not move. -/
def enrollStep (s : EnrollState) (o : EnrollOutcome) : EnrollState :=
  match s with
  | .Sampling i =>
    match o with
    | .response status continuation =>
      if status = FP_ACK_SUCCESS then
        if continuation = FP_ENROLL_CONTINUE then .Sampling (i + 1)
        else if continuation = FP_ENROLL_FINAL then
          if i + 1 = FP_ENROLL_SAMPLE_COUNT then .Completed
          else .Failed FailReason.protocolError
        else .Failed FailReason.protocolError
      else .Failed (FailReason.deviceStatus status)
    | .protocolError => .Failed FailReason.protocolError
    | .timeout => .Failed FailReason.sessionTimeout
  | other => other

/-- Modelled from the spec: `cancel()` of the missing workflow, valid only
from Sampling, where it moves to Cancelled whatever the device replies. -/
def enrollCancel (s : EnrollState) : EnrollState :=
  match s with
  | .Sampling _ => .Cancelled
  | other => other

/-- The states the workflow passes through from state s on a sequence of
outcomes, s first. -/
def enrollRun (s : EnrollState) : List EnrollOutcome → List EnrollState
  | [] => [s]
  | o :: os => s :: enrollRun (enrollStep s o) os

/-! ## The specification's names

These two lists are written from the specification's words, not from the
header: the variants of its command set and of its closed status enumeration,
in the specification's order (which is the header's). They are what the lookup
functions are compared with. -/

/-- The specification's enumerated command set. -/
def specCommandNames : List String :=
  ["Open", "Close", "UartControl", "LedControl", "IsPressFinger", "Enroll", "DeleteId",
   "DeleteAll", "GetUserCount", "Identify", "GetEntryId", "GetFwVersion", "EnrollCancel"]

/-- The specification's closed status enumeration, without its Unknown variant. -/
def specStatusNames : List String :=
  ["Success", "Fail", "Full", "NoUser", "UserExist", "Timeout", "WrongFormat", "Break",
   "InvalidParameter", "FingerNotPressed", "CommandNoSupport", "EnrollOverexposure",
   "EnrollMoveMore", "EnrollMoveLess", "EnrollDuplicate", "FingerPressNotFull",
   "EnrollPoorQuality"]

/-- A name with its blanks removed and its letters in lower case: the form in
which a display name of the header is compared with a variant name of the
specification. -/
def normName (s : String) : List Char :=
  (s.toList.filter fun c => c != ' ').map Char.toLower

/-! ## Packet structure -/

/-- C1: the packet start sentinel and the packet end sentinel are the same
byte, that byte is 0xF5 (245), and it fits in one byte. -/
theorem sentinel_is_F5 :
    FP_PACKET_START_CODE = FP_PACKET_END_CODE ∧ FP_PACKET_START_CODE = 0xF5 ∧
      FP_PACKET_END_CODE = 245 ∧ FP_PACKET_START_CODE < 256 ∧
      FP_PACKET_START_CODE % 256 = FP_PACKET_START_CODE := by
  decide

/-- C2: the command packet layout is [Start][Command][P1][P2][P3][P4][Checksum][End]:
the eight command offsets are 0..7 in that order, pairwise distinct, each below
FP_PACKET_SIZE = 8, and every index of a packet is exactly one of them. -/
theorem cmd_layout :
    cmdOffsets = [0, 1, 2, 3, 4, 5, 6, 7] ∧ FP_PACKET_SIZE = 8 ∧
      cmdOffsets = List.range FP_PACKET_SIZE ∧ cmdOffsets.Nodup ∧
      cmdOffsets.length = FP_PACKET_SIZE ∧
      (∀ o ∈ cmdOffsets, o < FP_PACKET_SIZE) ∧
      (∀ i, i < FP_PACKET_SIZE → cmdOffsets.count i = 1) := by
  decide

/-- C3: the response packet layout is [Start][Command][Q1][Q2][Q3][Reserved][Checksum][End]:
the eight response offsets are 0..7 in that order, pairwise distinct, each
below FP_PACKET_SIZE = 8, every index of a packet is exactly one of them, and
Start, Command, Checksum and End sit where the command packet has them. -/
theorem ack_layout :
    ackOffsets = [0, 1, 2, 3, 4, 5, 6, 7] ∧ FP_PACKET_SIZE = 8 ∧
      ackOffsets = List.range FP_PACKET_SIZE ∧ ackOffsets.Nodup ∧
      ackOffsets.length = FP_PACKET_SIZE ∧
      (∀ o ∈ ackOffsets, o < FP_PACKET_SIZE) ∧
      (∀ i, i < FP_PACKET_SIZE → ackOffsets.count i = 1) ∧
      FP_ACK_OFFSET_START = FP_CMD_OFFSET_START ∧
      FP_ACK_OFFSET_COMMAND = FP_CMD_OFFSET_COMMAND ∧
      FP_ACK_OFFSET_CHECKSUM = FP_CMD_OFFSET_CHECKSUM ∧
      FP_ACK_OFFSET_END = FP_CMD_OFFSET_END := by
  decide

/-- C4: the checksummed range is offsets 1 to 5: an offset is the command byte
or one of the four bytes after it, in the command packet and in the response
packet alike, exactly when it lies in 1..5; the checksum offset and the Start
and End offsets lie outside. -/
theorem checksummed_range :
    cmdChecksummed = [1, 2, 3, 4, 5] ∧ ackChecksummed = [1, 2, 3, 4, 5] ∧
      (∀ o : Nat, o ∈ cmdChecksummed ↔ 1 ≤ o ∧ o ≤ 5) ∧
      (∀ o : Nat, o ∈ ackChecksummed ↔ 1 ≤ o ∧ o ≤ 5) ∧
      FP_CMD_OFFSET_CHECKSUM = 6 ∧ FP_ACK_OFFSET_CHECKSUM = 6 ∧
      FP_CMD_OFFSET_CHECKSUM ∉ cmdChecksummed ∧ FP_ACK_OFFSET_CHECKSUM ∉ ackChecksummed ∧
      FP_CMD_OFFSET_START ∉ cmdChecksummed ∧ FP_CMD_OFFSET_END ∉ cmdChecksummed ∧
      FP_ACK_OFFSET_START ∉ ackChecksummed ∧ FP_ACK_OFFSET_END ∉ ackChecksummed := by
  refine ⟨by decide, by decide, ?_, ?_, by decide, by decide, by decide, by decide,
    by decide, by decide, by decide, by decide⟩
  · intro o
    simp only [cmdChecksummed, FP_CMD_OFFSET_COMMAND, FP_CMD_OFFSET_P1, FP_CMD_OFFSET_P2,
      FP_CMD_OFFSET_P3, FP_CMD_OFFSET_P4, List.mem_cons, List.mem_singleton]
    simp only [List.not_mem_nil, or_false]
    omega
  · intro o
    simp only [ackChecksummed, FP_ACK_OFFSET_COMMAND, FP_ACK_OFFSET_Q1, FP_ACK_OFFSET_Q2,
      FP_ACK_OFFSET_Q3, FP_ACK_OFFSET_RESERVED, List.mem_cons, List.mem_singleton]
    simp only [List.not_mem_nil, or_false]
    omega

/-! ## Lookup functions -/

/-- Bounded form of the ACK fallback, by evaluation on all 256 bytes. -/
theorem ack_unknown_all :
    ∀ ack, ack < 256 → (fp_ack_to_string ack = "Unknown" ↔ ack ∉ ackCodes) := by
  set_option maxRecDepth 100000 in decide

/-- Bounded form of the command fallback, by evaluation on all 256 bytes. -/
theorem cmd_unknown_all :
    ∀ cmd, cmd < 256 → (fp_cmd_to_string cmd = "Unknown" ↔ cmd ∉ cmdCodes) := by
  set_option maxRecDepth 100000 in decide

/-- Every byte is given one of the seventeen status names or the fallback. -/
theorem ack_string_range :
    ∀ ack, ack < 256 → fp_ack_to_string ack ∈ specStatusNames ++ ["Unknown"] := by
  set_option maxRecDepth 100000 in decide

/-- C5: unknown status codes never fail and are mapped to the fallback: for
every byte ack, fp_ack_to_string returns a string, and that string is
"Unknown" exactly when ack is none of the 17 defined ACK codes. -/
theorem ack_unknown_iff (ack : Nat) (h : ack < 256) :
    ackCodes = [0x00, 0x01, 0x04, 0x05, 0x07, 0x08, 0x09, 0x18, 0xB0, 0xB1, 0xB4, 0xB5, 0xB6,
        0xB7, 0xB8, 0xB9, 0xBA] ∧
      (∃ s : String, fp_ack_to_string ack = s) ∧
      (fp_ack_to_string ack = "Unknown" ↔ ack ∉ ackCodes) :=
  ⟨by decide, ⟨_, rfl⟩, ack_unknown_all ack h⟩

/-- C5 at the undefined code 0x02 and at the defined code 0xBA. -/
theorem ack_unknown_iff_witness :
    (0x02 < 256 ∧ fp_ack_to_string 0x02 = "Unknown") ∧
      (0xBA < 256 ∧ fp_ack_to_string 0xBA ≠ "Unknown") :=
  ⟨⟨by decide, (ack_unknown_iff 0x02 (by decide)).2.2.mpr (by decide)⟩,
   ⟨by decide, fun e => (ack_unknown_iff 0xBA (by decide)).2.2.mp e (by decide)⟩⟩

/-- C6: for each of the 17 defined ACK codes fp_ack_to_string returns, character
for character, the name of that status in the specification's closed
enumeration, and the strings returned over all 256 bytes are exactly these 17
names and "Unknown". -/
theorem ack_names :
    (fp_ack_to_string FP_ACK_SUCCESS = "Success" ∧
      fp_ack_to_string FP_ACK_FAIL = "Fail" ∧
      fp_ack_to_string FP_ACK_FULL = "Full" ∧
      fp_ack_to_string FP_ACK_NOUSER = "NoUser" ∧
      fp_ack_to_string FP_ACK_USER_EXIST = "UserExist" ∧
      fp_ack_to_string FP_ACK_TIMEOUT = "Timeout" ∧
      fp_ack_to_string FP_ACK_WRONG_FORMAT = "WrongFormat" ∧
      fp_ack_to_string FP_ACK_BREAK = "Break" ∧
      fp_ack_to_string FP_ACK_INVALID_PARAMETER = "InvalidParameter" ∧
      fp_ack_to_string FP_ACK_FINGER_IS_NOT_PRESSED = "FingerNotPressed" ∧
      fp_ack_to_string FP_ACK_COMMAND_NO_SUPPORT = "CommandNoSupport" ∧
      fp_ack_to_string FP_ACK_ENROLL_OVEREXPOSURE = "EnrollOverexposure" ∧
      fp_ack_to_string FP_ACK_ENROLL_MOVE_MORE = "EnrollMoveMore" ∧
      fp_ack_to_string FP_ACK_ENROLL_MOVE_LESS = "EnrollMoveLess" ∧
      fp_ack_to_string FP_ACK_ENROLL_DUPLICATE = "EnrollDuplicate" ∧
      fp_ack_to_string FP_ACK_FINGER_PRESS_NOT_FULL = "FingerPressNotFull" ∧
      fp_ack_to_string FP_ACK_ENROLL_POOR_QUALITY = "EnrollPoorQuality") ∧
      ackCodes.map fp_ack_to_string = specStatusNames ∧
      (∀ s : String, (∃ ack, ack < 256 ∧ fp_ack_to_string ack = s) ↔
        s ∈ specStatusNames ++ ["Unknown"]) := by
  refine ⟨by decide, by decide, fun s => ⟨?_, fun hs => ?_⟩⟩
  · rintro ⟨ack, hlt, rfl⟩
    exact ack_string_range ack hlt
  · have hcov : ∀ t ∈ specStatusNames ++ ["Unknown"],
        t ∈ (ackCodes ++ [0x02]).map fp_ack_to_string := by decide
    obtain ⟨ack, hmem, heq⟩ := List.mem_map.mp (hcov s hs)
    have hbyte : ∀ a ∈ ackCodes ++ [0x02], a < 256 := by decide
    exact ⟨ack, hbyte ack hmem, heq⟩

/-- C7: the command set is the fixed set of 13 commands and nothing else is
recognised: for every byte cmd, fp_cmd_to_string returns "Unknown" exactly
when cmd is none of the 13 defined command codes. -/
theorem cmd_unknown_iff (cmd : Nat) (h : cmd < 256) :
    cmdCodes = [0xA0, 0xA1, 0xA3, 0xB4, 0xB5, 0x01, 0x04, 0x05, 0x09, 0x0C, 0x0D, 0x26,
        0x92] ∧
      cmdCodes.length = 13 ∧
      (fp_cmd_to_string cmd = "Unknown" ↔ cmd ∉ cmdCodes) :=
  ⟨by decide, by decide, cmd_unknown_all cmd h⟩

/-- C7 at the undefined code 0xA2 and at the defined code 0x92. -/
theorem cmd_unknown_iff_witness :
    (0xA2 < 256 ∧ fp_cmd_to_string 0xA2 = "Unknown") ∧
      (0x92 < 256 ∧ fp_cmd_to_string 0x92 ≠ "Unknown") :=
  ⟨⟨by decide, (cmd_unknown_iff 0xA2 (by decide)).2.2.mpr (by decide)⟩,
   ⟨by decide, fun e => (cmd_unknown_iff 0x92 (by decide)).2.2.mp e (by decide)⟩⟩

/-- C8, as the specification states it, fails: for FP_CMD_UART_CONTROL (0xA3)
fp_cmd_to_string returns "UART Control", which is not the specification's
"UartControl"; likewise for the four other codes listed. -/
theorem cmd_names_differ :
    fp_cmd_to_string 0xA3 = "UART Control" ∧ fp_cmd_to_string 0xA3 ≠ "UartControl" ∧
      fp_cmd_to_string 0xB4 ≠ "LedControl" ∧ fp_cmd_to_string 0x04 ≠ "DeleteId" ∧
      fp_cmd_to_string 0x0D ≠ "GetEntryId" ∧ fp_cmd_to_string 0x26 ≠ "GetFwVersion" ∧
      cmdCodes.map fp_cmd_to_string ≠ specCommandNames := by
  decide

/-- C8, amended: for each of the 13 defined command codes fp_cmd_to_string
returns the display name the header gives it; eight of these are, character
for character, the specification's names, and all thirteen are the
specification's names once blanks are removed and letter case is ignored. -/
theorem cmd_names :
    (fp_cmd_to_string FP_CMD_OPEN = "Open" ∧
      fp_cmd_to_string FP_CMD_CLOSE = "Close" ∧
      fp_cmd_to_string FP_CMD_UART_CONTROL = "UART Control" ∧
      fp_cmd_to_string FP_CMD_LED_CONTROL = "LED Control" ∧
      fp_cmd_to_string FP_CMD_IS_PRESS_FINGER = "IsPressFinger" ∧
      fp_cmd_to_string FP_CMD_ENROLL = "Enroll" ∧
      fp_cmd_to_string FP_CMD_DELETE_ID = "DeleteID" ∧
      fp_cmd_to_string FP_CMD_DELETE_ALL = "DeleteAll" ∧
      fp_cmd_to_string FP_CMD_GET_USER_COUNT = "GetUserCount" ∧
      fp_cmd_to_string FP_CMD_IDENTIFY = "Identify" ∧
      fp_cmd_to_string FP_CMD_GET_ENTRY_ID = "GetEntryID" ∧
      fp_cmd_to_string FP_CMD_GET_FW_VERSION = "GetFWVersion" ∧
      fp_cmd_to_string FP_CMD_ENROLL_CANCEL = "EnrollCancel") ∧
      (cmdCodes.map fp_cmd_to_string).map normName = specCommandNames.map normName ∧
      (∀ c ∈ cmdCodes, c ∉ [FP_CMD_UART_CONTROL, FP_CMD_LED_CONTROL, FP_CMD_DELETE_ID,
          FP_CMD_GET_ENTRY_ID, FP_CMD_GET_FW_VERSION] →
        fp_cmd_to_string c ∈ specCommandNames) := by
  refine ⟨by decide, by decide, by decide⟩

/-! ## Extended data blocks -/

/-- C9: the firmware version block is 40 bytes with sensor type at offset 0
and year, month, day, version at offsets 12, 13, 14, 15; so in every block b
of FP_FW_DATA_SIZE bytes each named field offset is in bounds, the five
offsets are pairwise distinct, and the year, month, day and version fields
read b[12], b[13], b[14], b[15]. -/
theorem fw_data_layout (b : List Nat) (h : b.length = FP_FW_DATA_SIZE) :
    FP_FW_DATA_SIZE = 40 ∧ fwDataOffsets = [0, 12, 13, 14, 15] ∧ fwDataOffsets.Nodup ∧
      (∀ o ∈ fwDataOffsets, o < b.length) ∧
      (∀ o ∈ fwDataOffsets, ∃ v, b[o]? = some v) ∧
      b[FP_FW_DATA_SENSOR_TYPE]? = some (b.get ⟨0, by rw [h]; decide⟩) ∧
      b[FP_FW_DATA_YEAR]? = some (b.get ⟨12, by rw [h]; decide⟩) ∧
      b[FP_FW_DATA_MONTH]? = some (b.get ⟨13, by rw [h]; decide⟩) ∧
      b[FP_FW_DATA_DAY]? = some (b.get ⟨14, by rw [h]; decide⟩) ∧
      b[FP_FW_DATA_VERSION]? = some (b.get ⟨15, by rw [h]; decide⟩) := by
  have hin : ∀ o ∈ fwDataOffsets, o < b.length := by
    rw [h]; decide
  refine ⟨rfl, by decide, by decide, hin, fun o ho => ?_, ?_, ?_, ?_, ?_, ?_⟩
  · exact ⟨b.get ⟨o, hin o ho⟩, List.getElem?_eq_getElem (hin o ho)⟩
  all_goals exact List.getElem?_eq_getElem _

/-- C9 on the block whose byte at offset i is i: year, month, day and version
read 12, 13, 14 and 15. -/
theorem fw_data_layout_witness :
    (List.range 40).length = FP_FW_DATA_SIZE ∧
      (List.range 40)[FP_FW_DATA_YEAR]? = some 12 ∧
      (List.range 40)[FP_FW_DATA_MONTH]? = some 13 ∧
      (List.range 40)[FP_FW_DATA_DAY]? = some 14 ∧
      (List.range 40)[FP_FW_DATA_VERSION]? = some 15 :=
  have w := fw_data_layout (List.range 40) (by decide)
  ⟨by decide, w.2.2.2.2.2.2.1, w.2.2.2.2.2.2.2.1, w.2.2.2.2.2.2.2.2.1, w.2.2.2.2.2.2.2.2.2⟩

/-- C10: the Open info block is 11 bytes and every named field lies inside it
without overlap: the eight field offsets are 0, 1, 2, 3, 4, 5, 6, 10, pairwise
distinct and below FP_OPEN_DATA_SIZE; the year's high byte follows its low
byte, so the year of a block b, low byte first, is b[4] + 256 * b[5]; and the
sensor type is the last byte of the block. -/
theorem open_data_layout (b : List Nat) (h : b.length = FP_OPEN_DATA_SIZE) :
    FP_OPEN_DATA_SIZE = 11 ∧ openDataOffsets = [0, 1, 2, 3, 4, 5, 6, 10] ∧
      openDataOffsets.Nodup ∧
      (∀ o ∈ openDataOffsets, o < FP_OPEN_DATA_SIZE) ∧
      (∀ o ∈ openDataOffsets, ∃ v, b[o]? = some v) ∧
      FP_OPEN_DATA_FW_YEAR_HIGH = FP_OPEN_DATA_FW_YEAR_LOW + 1 ∧
      b[FP_OPEN_DATA_FW_YEAR_LOW]? = some (b.get ⟨4, by rw [h]; decide⟩) ∧
      b[FP_OPEN_DATA_FW_YEAR_HIGH]? = some (b.get ⟨5, by rw [h]; decide⟩) ∧
      b.getD FP_OPEN_DATA_FW_YEAR_LOW 0 + 256 * b.getD FP_OPEN_DATA_FW_YEAR_HIGH 0 =
        b.get ⟨4, by rw [h]; decide⟩ + 256 * b.get ⟨5, by rw [h]; decide⟩ ∧
      FP_OPEN_DATA_SENSOR_TYPE = FP_OPEN_DATA_SIZE - 1 ∧
      FP_OPEN_DATA_SENSOR_TYPE + 1 = b.length ∧
      b[FP_OPEN_DATA_SENSOR_TYPE]? = b.getLast? := by
  have hin : ∀ o ∈ openDataOffsets, o < b.length := by
    rw [h]; decide
  have h4 : 4 < b.length := by rw [h]; decide
  have h5 : 5 < b.length := by rw [h]; decide
  refine ⟨rfl, by decide, by decide, by decide, fun o ho => ?_, rfl, ?_, ?_, ?_, rfl,
    h.symm, ?_⟩
  · exact ⟨b.get ⟨o, hin o ho⟩, List.getElem?_eq_getElem (hin o ho)⟩
  · exact List.getElem?_eq_getElem _
  · exact List.getElem?_eq_getElem _
  · simp only [FP_OPEN_DATA_FW_YEAR_LOW, FP_OPEN_DATA_FW_YEAR_HIGH, List.getD_eq_getElem?_getD,
      List.getElem?_eq_getElem h4, List.getElem?_eq_getElem h5, Option.getD_some,
      List.get_eq_getElem]
  · rw [List.getLast?_eq_getElem?, h]
    rfl

/-- C10 on the block of a module released on 25 March 2021 (year 0x07E5, low
byte 0xE5 first): the year reads 2021 and the sensor type is the last byte. -/
theorem open_data_layout_witness :
    [0x01, 0, 25, 3, 0xE5, 0x07, 0, 0, 0, 0, 0x33].length = FP_OPEN_DATA_SIZE ∧
      ([0x01, 0, 25, 3, 0xE5, 0x07, 0, 0, 0, 0, 0x33] : List Nat).getD
          FP_OPEN_DATA_FW_YEAR_LOW 0 +
        256 * ([0x01, 0, 25, 3, 0xE5, 0x07, 0, 0, 0, 0, 0x33] : List Nat).getD
          FP_OPEN_DATA_FW_YEAR_HIGH 0 = 2021 ∧
      ([0x01, 0, 25, 3, 0xE5, 0x07, 0, 0, 0, 0, 0x33] : List Nat)[FP_OPEN_DATA_SENSOR_TYPE]? =
        some 0x33 :=
  have w := open_data_layout [0x01, 0, 25, 3, 0xE5, 0x07, 0, 0, 0, 0, 0x33] (by decide)
  ⟨by decide, w.2.2.2.2.2.2.2.2.1, w.2.2.2.2.2.2.2.2.2.2.2⟩

/-! ## Parameter ranges -/

/-- C11: the recognised baud rate indexes are exactly 1..6: the six
FP_BAUDRATE_* constants are pairwise distinct, their set is 1..6, the index
grows strictly with the baud rate its constant names, and a byte is a
recognised index exactly when it lies between 1 and 6. -/
theorem baud_indexes :
    baudIndexes = [1, 2, 3, 4, 5, 6] ∧ baudIndexes.Nodup ∧ baudIndexes.length = 6 ∧
      baudTable.map Prod.snd = baudIndexes ∧
      baudTable.map Prod.fst = [9600, 19200, 115200, 230400, 460800, 921600] ∧
      baudTable.Pairwise (fun x y => x.1 < y.1 ∧ x.2 < y.2) ∧
      (∀ x ∈ baudTable, ∀ y ∈ baudTable, x.1 < y.1 ↔ x.2 < y.2) ∧
      (∀ b : Nat, b ∈ baudIndexes ↔ 1 ≤ b ∧ b ≤ 6) := by
  refine ⟨by decide, by decide, by decide, by decide, by decide, by decide, by decide, ?_⟩
  intro b
  simp only [baudIndexes, FP_BAUDRATE_9600, FP_BAUDRATE_19200, FP_BAUDRATE_115200,
    FP_BAUDRATE_230400, FP_BAUDRATE_460800, FP_BAUDRATE_921600, List.mem_cons,
    List.not_mem_nil, or_false]
  omega

/-- C12: the valid LED control values are exactly 0 and 1: FP_LED_ON = 0 and
FP_LED_OFF = 1 are distinct, and a byte is FP_LED_ON or FP_LED_OFF exactly
when it is at most 1. -/
theorem led_values :
    FP_LED_ON = 0 ∧ FP_LED_OFF = 1 ∧ FP_LED_ON ≠ FP_LED_OFF ∧ ledValues = [0, 1] ∧
      (∀ b : Nat, b ∈ ledValues ↔ b = FP_LED_ON ∨ b = FP_LED_OFF) ∧
      (∀ b : Nat, b = FP_LED_ON ∨ b = FP_LED_OFF ↔ b = 0 ∨ b = 1) ∧
      (∀ b : Nat, b = FP_LED_ON ∨ b = FP_LED_OFF ↔ b ≤ 1) := by
  refine ⟨rfl, rfl, by decide, by decide, fun b => ?_, fun b => ?_, fun b => ?_⟩
  · simp only [ledValues, List.mem_cons, List.not_mem_nil, or_false]
  · simp only [FP_LED_ON, FP_LED_OFF]
  · simp only [FP_LED_ON, FP_LED_OFF]
    omega

/-! ## Injectivity of the lookup functions -/

/-- On the thirteen command codes, equal names come from equal codes. -/
theorem cmd_string_inj_on_codes :
    ∀ a ∈ cmdCodes, ∀ b ∈ cmdCodes, fp_cmd_to_string a = fp_cmd_to_string b → a = b := by
  decide

/-- On the seventeen ACK codes, equal names come from equal codes. -/
theorem ack_string_inj_on_codes :
    ∀ a ∈ ackCodes, ∀ b ∈ ackCodes, fp_ack_to_string a = fp_ack_to_string b → a = b := by
  decide

/-- C17: fp_cmd_to_string is injective on recognised commands: the 13 command
codes are pairwise distinct bytes, their 13 names are pairwise distinct and
none is "Unknown", and two bytes with the same name other than "Unknown" are
the same byte. -/
theorem cmd_string_injective (a b : Nat) (ha : a < 256) (hb : b < 256)
    (hab : fp_cmd_to_string a = fp_cmd_to_string b)
    (hne : fp_cmd_to_string a ≠ "Unknown") :
    a = b ∧ a ∈ cmdCodes ∧ cmdCodes.Nodup ∧ (∀ c ∈ cmdCodes, c < 256) ∧
      (cmdCodes.map fp_cmd_to_string).Nodup ∧
      (cmdCodes.map fp_cmd_to_string).length = 13 ∧
      "Unknown" ∉ cmdCodes.map fp_cmd_to_string := by
  have hA : a ∈ cmdCodes := by
    by_contra hn
    exact hne ((cmd_unknown_all a ha).mpr hn)
  have hB : b ∈ cmdCodes := by
    by_contra hn
    exact hne (hab.trans ((cmd_unknown_all b hb).mpr hn))
  exact ⟨cmd_string_inj_on_codes a hA b hB hab, hA, by decide, by decide, by decide,
    by decide, by decide⟩

/-- C17 at the byte 0x0D, named "GetEntryID". -/
theorem cmd_string_injective_witness :
    fp_cmd_to_string 0x0D = "GetEntryID" ∧ 0x0D ∈ cmdCodes :=
  ⟨by decide, (cmd_string_injective 0x0D 0x0D (by decide) (by decide) rfl (by decide)).2.1⟩

/-- C18: fp_ack_to_string is injective on recognised status codes: the 17 ACK
codes are pairwise distinct bytes, their 17 names are pairwise distinct and
none is "Unknown", and two bytes with the same name other than "Unknown" are
the same byte. -/
theorem ack_string_injective (a b : Nat) (ha : a < 256) (hb : b < 256)
    (hab : fp_ack_to_string a = fp_ack_to_string b)
    (hne : fp_ack_to_string a ≠ "Unknown") :
    a = b ∧ a ∈ ackCodes ∧ ackCodes.Nodup ∧ (∀ c ∈ ackCodes, c < 256) ∧
      (ackCodes.map fp_ack_to_string).Nodup ∧
      (ackCodes.map fp_ack_to_string).length = 17 ∧
      "Unknown" ∉ ackCodes.map fp_ack_to_string := by
  have hA : a ∈ ackCodes := by
    by_contra hn
    exact hne ((ack_unknown_all a ha).mpr hn)
  have hB : b ∈ ackCodes := by
    by_contra hn
    exact hne (hab.trans ((ack_unknown_all b hb).mpr hn))
  exact ⟨ack_string_inj_on_codes a hA b hB hab, hA, by decide, by decide, by decide,
    by decide, by decide⟩

/-- C18 at the byte 0xB9, named "FingerPressNotFull". -/
theorem ack_string_injective_witness :
    fp_ack_to_string 0xB9 = "FingerPressNotFull" ∧ 0xB9 ∈ ackCodes :=
  ⟨by decide, (ack_string_injective 0xB9 0xB9 (by decide) (by decide) rfl (by decide)).2.1⟩

/-! ## Codec -/

/-- Every packet is a list of exactly eight bytes. -/
theorem Packet.eq_eight (p : Packet) :
    ∃ a0 a1 a2 a3 a4 a5 a6 a7 : Nat, p = ⟨[a0, a1, a2, a3, a4, a5, a6, a7], rfl⟩ := by
  obtain ⟨b, h⟩ := p
  have hb : ∃ a0 a1 a2 a3 a4 a5 a6 a7 : Nat, b = [a0, a1, a2, a3, a4, a5, a6, a7] := by
    simp only [FP_PACKET_SIZE] at h
    rcases b with _ | ⟨a0, _ | ⟨a1, _ | ⟨a2, _ | ⟨a3, _ | ⟨a4, _ | ⟨a5, _ | ⟨a6, _ | ⟨a7,
      _ | ⟨a8, t⟩⟩⟩⟩⟩⟩⟩⟩⟩
    all_goals first
      | exact ⟨_, _, _, _, _, _, _, _, rfl⟩
      | (exfalso; simp only [List.length_cons, List.length_nil] at h; omega)
  obtain ⟨a0, a1, a2, a3, a4, a5, a6, a7, rfl⟩ := hb
  exact ⟨a0, a1, a2, a3, a4, a5, a6, a7, rfl⟩

/-- The padded parameters are four bytes, listed by index. -/
theorem padParams_eq (params : List Nat) :
    padParams params = [(padParams params).getD 0 0, (padParams params).getD 1 0,
      (padParams params).getD 2 0, (padParams params).getD 3 0] := by
  have hlen : (padParams params).length = 4 := by
    simp only [padParams, List.length_take, List.length_append, List.length_cons,
      List.length_nil]
    omega
  generalize padParams params = l at hlen
  rcases l with _ | ⟨a0, _ | ⟨a1, _ | ⟨a2, _ | ⟨a3, _ | ⟨a4, t⟩⟩⟩⟩⟩
  all_goals first
    | rfl
    | (exfalso; simp only [List.length_cons, List.length_nil] at hlen; omega)

/-- Decoding a framed request gives back the command and the padded parameters. -/
theorem decode_encodeFrame (ck : List Nat → Nat) (cmd : Nat) (params : List Nat) :
    decode ck (encodeFrame ck cmd params) =
      .ok { command := cmd, q1 := (padParams params).getD 0 0,
            q2 := (padParams params).getD 1 0, q3 := (padParams params).getD 2 0,
            reserved := (padParams params).getD 3 0 } := by
  have hck : ck (ackChecksummed.map (encodeFrame ck cmd params).byte) =
      ck (cmd :: padParams params) := by
    conv_rhs => rw [padParams_eq params]
    rfl
  have h0 : (encodeFrame ck cmd params).byte FP_ACK_OFFSET_START = FP_PACKET_START_CODE := rfl
  have h7 : (encodeFrame ck cmd params).byte FP_ACK_OFFSET_END = FP_PACKET_END_CODE := rfl
  have h6 : (encodeFrame ck cmd params).byte FP_ACK_OFFSET_CHECKSUM =
      ck (cmd :: padParams params) % 256 := rfl
  unfold decode
  rw [hck, if_neg (not_not.mpr h0), if_neg (not_not.mpr h7), if_neg (not_not.mpr h6)]
  rfl

/-- A padded parameter is a byte when every given parameter is. -/
theorem padParams_getD_lt (params : List Nat) (hb : ∀ x ∈ params, x < 256) (i : Nat) :
    (padParams params).getD i 0 < 256 := by
  by_cases hi : i < (padParams params).length
  · rw [List.getD_eq_getElem _ _ hi]
    have hmem : (padParams params)[i] ∈ params ++ [0, 0, 0, 0] :=
      List.mem_of_mem_take (List.getElem_mem hi)
    rcases List.mem_append.mp hmem with h | h
    · exact hb _ h
    · simp only [List.mem_cons, List.not_mem_nil, or_false] at h
      omega
  · rw [List.getD_eq_default _ _ (Nat.le_of_not_lt hi)]
    decide

/-- C13: codec round trip. For every checksum function, every valid command
and parameter set is encoded, the encoded packet is 8 bytes with 0xF5 at
offsets 0 and 7, the command at offset 1, the zero-padded parameters at
offsets 2..5 and the checksum at offset 6, and decoding it succeeds with the
same command byte and the same four parameter bytes. -/
theorem codec_round_trip (ck : List Nat → Nat) (cmd : Nat) (params : List Nat)
    (hv : validRequest cmd params = true) :
    encode ck cmd params = .ok (encodeFrame ck cmd params) ∧
      decode ck (encodeFrame ck cmd params) =
        .ok { command := cmd, q1 := (padParams params).getD 0 0,
              q2 := (padParams params).getD 1 0, q3 := (padParams params).getD 2 0,
              reserved := (padParams params).getD 3 0 } ∧
      (padParams params).length = 4 ∧ (padParams params).take params.length = params ∧
      (encodeFrame ck cmd params).val.length = 8 ∧
      (∀ o, o < FP_PACKET_SIZE → (encodeFrame ck cmd params).byte o < 256) ∧
      (encodeFrame ck cmd params).byte FP_CMD_OFFSET_START = 0xF5 ∧
      (encodeFrame ck cmd params).byte FP_CMD_OFFSET_END = 0xF5 ∧
      (encodeFrame ck cmd params).byte FP_CMD_OFFSET_COMMAND = cmd ∧
      [(encodeFrame ck cmd params).byte FP_CMD_OFFSET_P1,
        (encodeFrame ck cmd params).byte FP_CMD_OFFSET_P2,
        (encodeFrame ck cmd params).byte FP_CMD_OFFSET_P3,
        (encodeFrame ck cmd params).byte FP_CMD_OFFSET_P4] = padParams params ∧
      (encodeFrame ck cmd params).byte FP_CMD_OFFSET_CHECKSUM =
        ck (cmd :: padParams params) % 256 := by
  have hv2 := hv
  simp only [validRequest, Bool.and_eq_true, decide_eq_true_eq, List.all_eq_true] at hv2
  obtain ⟨⟨⟨⟨⟨hcmd, hlen⟩, hbytes⟩, _⟩, _⟩, _⟩ := hv2
  have hcmdlt : cmd < 256 := by
    have hall : ∀ c ∈ cmdCodes, c < 256 := by decide
    exact hall cmd hcmd
  refine ⟨?_, decode_encodeFrame ck cmd params, ?_, ?_, rfl, ?_, rfl, rfl, rfl,
    (padParams_eq params).symm, rfl⟩
  · unfold encode
    rw [if_pos hv]
  · simp only [padParams, List.length_take, List.length_append, List.length_cons,
      List.length_nil]
    omega
  · simp only [padParams, List.take_take, Nat.min_eq_left hlen]
    exact List.take_left' rfl
  · intro o ho
    have hg := padParams_getD_lt params hbytes
    have h0 := hg 0
    have h1 := hg 1
    have h2 := hg 2
    have h3 := hg 3
    have hk : ck (cmd :: padParams params) % 256 < 256 := Nat.mod_lt _ (by decide)
    simp only [FP_PACKET_SIZE] at ho
    have hcases : o = 0 ∨ o = 1 ∨ o = 2 ∨ o = 3 ∨ o = 4 ∨ o = 5 ∨ o = 6 ∨ o = 7 := by omega
    rcases hcases with rfl | rfl | rfl | rfl | rfl | rfl | rfl | rfl
    · exact (by decide : FP_PACKET_START_CODE < 256)
    · exact hcmdlt
    · exact h0
    · exact h1
    · exact h2
    · exact h3
    · exact hk
    · exact (by decide : FP_PACKET_END_CODE < 256)

/-- C13 on the LedControl request with value FP_LED_OFF, under the XOR
checksum: the packet is F5 B4 01 00 00 00 B5 F5 and decodes to the request. -/
theorem codec_round_trip_witness :
    validRequest FP_CMD_LED_CONTROL [FP_LED_OFF] = true ∧
      (encodeFrame checksumXor FP_CMD_LED_CONTROL [FP_LED_OFF]).val =
        [0xF5, 0xB4, 0x01, 0x00, 0x00, 0x00, 0xB5, 0xF5] ∧
      decode checksumXor (encodeFrame checksumXor FP_CMD_LED_CONTROL [FP_LED_OFF]) =
        .ok { command := 0xB4, q1 := 1, q2 := 0, q3 := 0, reserved := 0 } :=
  ⟨by decide, by decide,
    (codec_round_trip checksumXor FP_CMD_LED_CONTROL [FP_LED_OFF] (by decide)).2.1⟩

/-- C14: sentinel rejection. For every checksum function and every 8-byte
buffer, a byte other than 0xF5 at offset 0 gives BadStart; 0xF5 at offset 0
and a byte other than 0xF5 at offset 7 gives BadEnd; in both cases no Response
is returned, whatever the checksum byte is. -/
theorem sentinel_rejected (ck : List Nat → Nat) (p : Packet) :
    (p.byte 0 ≠ 0xF5 → decode ck p = .error (FrameError.BadStart p.val)) ∧
      (p.byte 0 = 0xF5 → p.byte 7 ≠ 0xF5 → decode ck p = .error (FrameError.BadEnd p.val)) ∧
      (p.byte 0 ≠ 0xF5 ∨ p.byte 7 ≠ 0xF5 → ∀ r : Response, decode ck p ≠ .ok r) := by
  have hstart : p.byte 0 ≠ 0xF5 → decode ck p = .error (FrameError.BadStart p.val) := by
    intro h
    have hs : p.byte FP_ACK_OFFSET_START ≠ FP_PACKET_START_CODE := h
    unfold decode
    rw [if_pos hs]
  have hend : p.byte 0 = 0xF5 → p.byte 7 ≠ 0xF5 →
      decode ck p = .error (FrameError.BadEnd p.val) := by
    intro h0 h7
    have hs : p.byte FP_ACK_OFFSET_START = FP_PACKET_START_CODE := h0
    have he : p.byte FP_ACK_OFFSET_END ≠ FP_PACKET_END_CODE := h7
    unfold decode
    rw [if_neg (not_not.mpr hs), if_pos he]
  refine ⟨hstart, hend, ?_⟩
  intro h r hr
  by_cases h0 : p.byte 0 = 0xF5
  · have h7 : p.byte 7 ≠ 0xF5 := by
      rcases h with h | h
      · exact absurd h0 h
      · exact h
    rw [hend h0 h7] at hr
    cases hr
  · rw [hstart h0] at hr
    cases hr

/-- C14 on two buffers with a correct XOR checksum byte: a corrupted Start
gives BadStart, a corrupted End gives BadEnd. -/
theorem sentinel_rejected_witness :
    decode checksumXor ⟨[0x00, 0xB4, 0x01, 0x00, 0x00, 0x00, 0xB5, 0xF5], rfl⟩ =
        .error (FrameError.BadStart [0x00, 0xB4, 0x01, 0x00, 0x00, 0x00, 0xB5, 0xF5]) ∧
      decode checksumXor ⟨[0xF5, 0xB4, 0x01, 0x00, 0x00, 0x00, 0xB5, 0xF4], rfl⟩ =
        .error (FrameError.BadEnd [0xF5, 0xB4, 0x01, 0x00, 0x00, 0x00, 0xB5, 0xF4]) :=
  ⟨(sentinel_rejected checksumXor ⟨[0x00, 0xB4, 0x01, 0x00, 0x00, 0x00, 0xB5, 0xF5], rfl⟩).1
      (by decide),
   (sentinel_rejected checksumXor ⟨[0xF5, 0xB4, 0x01, 0x00, 0x00, 0x00, 0xB5, 0xF4], rfl⟩).2.1
      (by decide) (by decide)⟩

/-- A packet that decodes has both sentinels and the checksum byte in place. -/
theorem decode_ok_fields (ck : List Nat → Nat) (p : Packet) (r : Response)
    (h : decode ck p = .ok r) :
    p.byte FP_ACK_OFFSET_START = FP_PACKET_START_CODE ∧
      p.byte FP_ACK_OFFSET_END = FP_PACKET_END_CODE ∧
      p.byte FP_ACK_OFFSET_CHECKSUM = ck (ackChecksummed.map p.byte) % 256 := by
  unfold decode at h
  split_ifs at h with h0 h7 h6
  exact ⟨not_not.mp h0, not_not.mp h7, not_not.mp h6⟩

/-- A packet with both sentinels in place and a wrong checksum byte is
rejected with ChecksumMismatch. -/
theorem decode_checksum_mismatch (ck : List Nat → Nat) (p : Packet)
    (h0 : p.byte FP_ACK_OFFSET_START = FP_PACKET_START_CODE)
    (h7 : p.byte FP_ACK_OFFSET_END = FP_PACKET_END_CODE)
    (h6 : p.byte FP_ACK_OFFSET_CHECKSUM ≠ ck (ackChecksummed.map p.byte) % 256) :
    decode ck p = .error (FrameError.ChecksumMismatch p.val) := by
  unfold decode
  rw [if_neg (not_not.mpr h0), if_neg (not_not.mpr h7), if_pos h6]

/-- The sum checksum of five bytes changes when exactly one of them changes. -/
theorem checksumSum_sensitive (a1 a2 a3 a4 a5 b1 b2 b3 b4 b5 : Nat)
    (ha : a1 < 256 ∧ a2 < 256 ∧ a3 < 256 ∧ a4 < 256 ∧ a5 < 256)
    (hb : b1 < 256 ∧ b2 < 256 ∧ b3 < 256 ∧ b4 < 256 ∧ b5 < 256)
    (hd : (a1 ≠ b1 ∧ a2 = b2 ∧ a3 = b3 ∧ a4 = b4 ∧ a5 = b5) ∨
      (a1 = b1 ∧ a2 ≠ b2 ∧ a3 = b3 ∧ a4 = b4 ∧ a5 = b5) ∨
      (a1 = b1 ∧ a2 = b2 ∧ a3 ≠ b3 ∧ a4 = b4 ∧ a5 = b5) ∨
      (a1 = b1 ∧ a2 = b2 ∧ a3 = b3 ∧ a4 ≠ b4 ∧ a5 = b5) ∨
      (a1 = b1 ∧ a2 = b2 ∧ a3 = b3 ∧ a4 = b4 ∧ a5 ≠ b5)) :
    checksumSum [a1, a2, a3, a4, a5] % 256 ≠ checksumSum [b1, b2, b3, b4, b5] % 256 := by
  simp only [checksumSum, List.sum_cons, List.sum_nil]
  omega

/-- The XOR checksum of five bytes changes when exactly one of them changes. -/
theorem checksumXor_sensitive (a1 a2 a3 a4 a5 b1 b2 b3 b4 b5 : Nat)
    (ha : a1 < 256 ∧ a2 < 256 ∧ a3 < 256 ∧ a4 < 256 ∧ a5 < 256)
    (hb : b1 < 256 ∧ b2 < 256 ∧ b3 < 256 ∧ b4 < 256 ∧ b5 < 256)
    (hd : (a1 ≠ b1 ∧ a2 = b2 ∧ a3 = b3 ∧ a4 = b4 ∧ a5 = b5) ∨
      (a1 = b1 ∧ a2 ≠ b2 ∧ a3 = b3 ∧ a4 = b4 ∧ a5 = b5) ∨
      (a1 = b1 ∧ a2 = b2 ∧ a3 ≠ b3 ∧ a4 = b4 ∧ a5 = b5) ∨
      (a1 = b1 ∧ a2 = b2 ∧ a3 = b3 ∧ a4 ≠ b4 ∧ a5 = b5) ∨
      (a1 = b1 ∧ a2 = b2 ∧ a3 = b3 ∧ a4 = b4 ∧ a5 ≠ b5)) :
    checksumXor [a1, a2, a3, a4, a5] % 256 ≠ checksumXor [b1, b2, b3, b4, b5] % 256 := by
  have hlt : ∀ x1 x2 x3 x4 x5 : Nat, x1 < 256 → x2 < 256 → x3 < 256 → x4 < 256 → x5 < 256 →
      checksumXor [x1, x2, x3, x4, x5] < 256 := by
    intro x1 x2 x3 x4 x5 h1 h2 h3 h4 h5
    have hx : ∀ u v : Nat, u < 256 → v < 256 → u ^^^ v < 256 := fun u v hu hv =>
      Nat.xor_lt_two_pow (n := 8) hu hv
    exact hx _ _ (hx _ _ (hx _ _ (hx _ _ (hx _ _ (by decide) h1) h2) h3) h4) h5
  obtain ⟨ha1, ha2, ha3, ha4, ha5⟩ := ha
  obtain ⟨hb1, hb2, hb3, hb4, hb5⟩ := hb
  rw [Nat.mod_eq_of_lt (hlt _ _ _ _ _ ha1 ha2 ha3 ha4 ha5),
    Nat.mod_eq_of_lt (hlt _ _ _ _ _ hb1 hb2 hb3 hb4 hb5)]
  simp only [checksumXor, List.foldl_cons, List.foldl_nil]
  rcases hd with ⟨h1, rfl, rfl, rfl, rfl⟩ | ⟨rfl, h2, rfl, rfl, rfl⟩ | ⟨rfl, rfl, h3, rfl, rfl⟩ |
    ⟨rfl, rfl, rfl, h4, rfl⟩ | ⟨rfl, rfl, rfl, rfl, h5⟩
  all_goals simp only [ne_eq, Nat.xor_left_inj, Nat.xor_right_inj]
  all_goals assumption

/-- C15: single-byte tamper detection. Under either checksum the specification
names (sum modulo 256, XOR), for every valid 8-byte packet p and every buffer
q of bytes that differs from p in exactly one byte, at an offset i in 1..5
(Start, End and the checksum byte unchanged), decoding q returns
ChecksumMismatch and never a Response. -/
theorem tamper_detected (ck : List Nat → Nat) (hck : ck = checksumSum ∨ ck = checksumXor)
    (p q : Packet) (i : Nat) (hi : 1 ≤ i ∧ i ≤ 5)
    (hp : ∀ o, o < FP_PACKET_SIZE → p.byte o < 256)
    (hq : ∀ o, o < FP_PACKET_SIZE → q.byte o < 256)
    (hvalid : ∃ r, decode ck p = .ok r)
    (hdiff : q.byte i ≠ p.byte i)
    (hsame : ∀ j, j < FP_PACKET_SIZE → j ≠ i → q.byte j = p.byte j) :
    decode ck q = .error (FrameError.ChecksumMismatch q.val) ∧
      ∀ r : Response, decode ck q ≠ .ok r := by
  obtain ⟨r, hr⟩ := hvalid
  obtain ⟨hp0, hp7, hp6⟩ := decode_ok_fields ck p r hr
  have hmis : q.byte FP_ACK_OFFSET_CHECKSUM ≠ ck (ackChecksummed.map q.byte) % 256 := by
    have e6 : q.byte FP_ACK_OFFSET_CHECKSUM = p.byte FP_ACK_OFFSET_CHECKSUM :=
      hsame 6 (by decide) (by omega)
    rw [e6, hp6]
    have ha : p.byte 1 < 256 ∧ p.byte 2 < 256 ∧ p.byte 3 < 256 ∧ p.byte 4 < 256 ∧
        p.byte 5 < 256 :=
      ⟨hp 1 (by decide), hp 2 (by decide), hp 3 (by decide), hp 4 (by decide),
        hp 5 (by decide)⟩
    have hb : q.byte 1 < 256 ∧ q.byte 2 < 256 ∧ q.byte 3 < 256 ∧ q.byte 4 < 256 ∧
        q.byte 5 < 256 :=
      ⟨hq 1 (by decide), hq 2 (by decide), hq 3 (by decide), hq 4 (by decide),
        hq 5 (by decide)⟩
    have hd : (p.byte 1 ≠ q.byte 1 ∧ p.byte 2 = q.byte 2 ∧ p.byte 3 = q.byte 3 ∧
          p.byte 4 = q.byte 4 ∧ p.byte 5 = q.byte 5) ∨
        (p.byte 1 = q.byte 1 ∧ p.byte 2 ≠ q.byte 2 ∧ p.byte 3 = q.byte 3 ∧
          p.byte 4 = q.byte 4 ∧ p.byte 5 = q.byte 5) ∨
        (p.byte 1 = q.byte 1 ∧ p.byte 2 = q.byte 2 ∧ p.byte 3 ≠ q.byte 3 ∧
          p.byte 4 = q.byte 4 ∧ p.byte 5 = q.byte 5) ∨
        (p.byte 1 = q.byte 1 ∧ p.byte 2 = q.byte 2 ∧ p.byte 3 = q.byte 3 ∧
          p.byte 4 ≠ q.byte 4 ∧ p.byte 5 = q.byte 5) ∨
        (p.byte 1 = q.byte 1 ∧ p.byte 2 = q.byte 2 ∧ p.byte 3 = q.byte 3 ∧
          p.byte 4 = q.byte 4 ∧ p.byte 5 ≠ q.byte 5) := by
      have hcases : i = 1 ∨ i = 2 ∨ i = 3 ∨ i = 4 ∨ i = 5 := by omega
      rcases hcases with rfl | rfl | rfl | rfl | rfl
      · exact Or.inl ⟨Ne.symm hdiff, (hsame 2 (by decide) (by decide)).symm,
          (hsame 3 (by decide) (by decide)).symm, (hsame 4 (by decide) (by decide)).symm,
          (hsame 5 (by decide) (by decide)).symm⟩
      · exact Or.inr (Or.inl ⟨(hsame 1 (by decide) (by decide)).symm, Ne.symm hdiff,
          (hsame 3 (by decide) (by decide)).symm, (hsame 4 (by decide) (by decide)).symm,
          (hsame 5 (by decide) (by decide)).symm⟩)
      · exact Or.inr (Or.inr (Or.inl ⟨(hsame 1 (by decide) (by decide)).symm,
          (hsame 2 (by decide) (by decide)).symm, Ne.symm hdiff,
          (hsame 4 (by decide) (by decide)).symm, (hsame 5 (by decide) (by decide)).symm⟩))
      · exact Or.inr (Or.inr (Or.inr (Or.inl ⟨(hsame 1 (by decide) (by decide)).symm,
          (hsame 2 (by decide) (by decide)).symm, (hsame 3 (by decide) (by decide)).symm,
          Ne.symm hdiff, (hsame 5 (by decide) (by decide)).symm⟩)))
      · exact Or.inr (Or.inr (Or.inr (Or.inr ⟨(hsame 1 (by decide) (by decide)).symm,
          (hsame 2 (by decide) (by decide)).symm, (hsame 3 (by decide) (by decide)).symm,
          (hsame 4 (by decide) (by decide)).symm, Ne.symm hdiff⟩)))
    have hpl : ackChecksummed.map p.byte =
        [p.byte 1, p.byte 2, p.byte 3, p.byte 4, p.byte 5] := rfl
    have hql : ackChecksummed.map q.byte =
        [q.byte 1, q.byte 2, q.byte 3, q.byte 4, q.byte 5] := rfl
    rw [hpl, hql]
    rcases hck with rfl | rfl
    · exact checksumSum_sensitive _ _ _ _ _ _ _ _ _ _ ha hb hd
    · exact checksumXor_sensitive _ _ _ _ _ _ _ _ _ _ ha hb hd
  have hq0 : q.byte FP_ACK_OFFSET_START = FP_PACKET_START_CODE :=
    (hsame 0 (by decide) (by omega)).trans hp0
  have hq7 : q.byte FP_ACK_OFFSET_END = FP_PACKET_END_CODE :=
    (hsame 7 (by decide) (by omega)).trans hp7
  have hres := decode_checksum_mismatch ck q hq0 hq7 hmis
  refine ⟨hres, fun r hr => ?_⟩
  rw [hres] at hr
  cases hr

/-- C15 on the valid LedControl packet F5 B4 01 00 00 00 B5 F5 (XOR checksum)
with its parameter byte at offset 2 changed from 01 to 00. -/
theorem tamper_detected_witness :
    decode checksumXor ⟨[0xF5, 0xB4, 0x01, 0x00, 0x00, 0x00, 0xB5, 0xF5], rfl⟩ =
        .ok { command := 0xB4, q1 := 1, q2 := 0, q3 := 0, reserved := 0 } ∧
      decode checksumXor ⟨[0xF5, 0xB4, 0x00, 0x00, 0x00, 0x00, 0xB5, 0xF5], rfl⟩ =
        .error (FrameError.ChecksumMismatch [0xF5, 0xB4, 0x00, 0x00, 0x00, 0x00, 0xB5, 0xF5]) :=
  ⟨rfl,
   (tamper_detected checksumXor (Or.inr rfl)
      ⟨[0xF5, 0xB4, 0x01, 0x00, 0x00, 0x00, 0xB5, 0xF5], rfl⟩
      ⟨[0xF5, 0xB4, 0x00, 0x00, 0x00, 0x00, 0xB5, 0xF5], rfl⟩ 2 (by decide)
      (by decide) (by decide) ⟨_, rfl⟩ (by decide) (by decide)).1⟩

/-! ## Enrollment workflow -/

/-- C16: enrollment completes after exactly FP_ENROLL_SAMPLE_COUNT = 8
samples. Started from Idle with a valid user ID, on Success with Continue for
samples 0..6 and Success with Final for sample 7 the workflow passes through
Sampling(0), ..., Sampling(7) and ends in Completed; Final completes sample i
exactly when i + 1 = FP_ENROLL_SAMPLE_COUNT, which holds for i = 7 only; and
the Continue and Final markers are distinct. -/
theorem enroll_completes (userId : Nat) (h : FP_USER_ID_MIN ≤ userId) :
    enrollStart userId EnrollState.Idle = some (EnrollState.Sampling 0) ∧
      enrollRun (EnrollState.Sampling 0)
          (List.replicate 7 (EnrollOutcome.response FP_ACK_SUCCESS FP_ENROLL_CONTINUE) ++
            [EnrollOutcome.response FP_ACK_SUCCESS FP_ENROLL_FINAL]) =
        [EnrollState.Sampling 0, EnrollState.Sampling 1, EnrollState.Sampling 2,
         EnrollState.Sampling 3, EnrollState.Sampling 4, EnrollState.Sampling 5,
         EnrollState.Sampling 6, EnrollState.Sampling 7, EnrollState.Completed] ∧
      FP_ENROLL_SAMPLE_COUNT = 8 ∧
      (∀ i : Nat, i + 1 = FP_ENROLL_SAMPLE_COUNT ↔ i = 7) ∧
      (∀ i : Nat, enrollStep (EnrollState.Sampling i)
          (EnrollOutcome.response FP_ACK_SUCCESS FP_ENROLL_FINAL) = EnrollState.Completed ↔
        i = 7) ∧
      FP_ENROLL_CONTINUE = 0x01 ∧ FP_ENROLL_FINAL = 0x03 ∧
      FP_ENROLL_CONTINUE ≠ FP_ENROLL_FINAL := by
  refine ⟨?_, by decide, rfl, fun i => ?_, fun i => ?_, rfl, rfl, by decide⟩
  · unfold enrollStart
    simp only [if_pos h]
  · simp only [FP_ENROLL_SAMPLE_COUNT]
    omega
  · have hstep : enrollStep (EnrollState.Sampling i)
        (EnrollOutcome.response FP_ACK_SUCCESS FP_ENROLL_FINAL) =
        if i + 1 = FP_ENROLL_SAMPLE_COUNT then EnrollState.Completed
        else EnrollState.Failed FailReason.protocolError := rfl
    rw [hstep]
    constructor
    · intro hc
      by_contra hne
      have hi : ¬ (i + 1 = FP_ENROLL_SAMPLE_COUNT) := by
        simp only [FP_ENROLL_SAMPLE_COUNT]
        omega
      rw [if_neg hi] at hc
      cases hc
    · rintro rfl
      rfl

/-- C16 for the smallest valid user ID, FP_USER_ID_MIN itself. -/
theorem enroll_completes_witness :
    FP_USER_ID_MIN ≤ 1 ∧
      enrollStart 1 EnrollState.Idle = some (EnrollState.Sampling 0) ∧
      (enrollRun (EnrollState.Sampling 0)
          (List.replicate 7 (EnrollOutcome.response FP_ACK_SUCCESS FP_ENROLL_CONTINUE) ++
            [EnrollOutcome.response FP_ACK_SUCCESS FP_ENROLL_FINAL])).getLast? =
        some EnrollState.Completed :=
  have w := enroll_completes 1 (by decide)
  ⟨by decide, w.1, by rw [w.2.1]; rfl⟩

end FingerprintDefs
